import Mathlib

/-!
Shallow embedding of the LSP gateway subsystem of the horizon repository
(src/src-tauri/src/lsp/): the document-state bookkeeping of the Rust
language adapter (servers/rust.rs), the active-server registry and the
start command (server_management.rs), the adapter launch (servers/rust.rs,
BaseLanguageServer impl), and the WebSocket gateway lifecycle
(websocket_manager.rs).  Concurrent maps are embedded as association
lists with unique-key (extensional) semantics; external effects (path
existence, process spawning, socket binding, the child analyzer we talk
to) are passed in as explicit oracles.
-/

set_option autoImplicit false

namespace Horizon

/-! ## Association-list maps (embedding of DashMap / HashMap key-value state) -/

variable {β : Type}

/-- Lookup of the value bound to a key (DashMap get). -/
def alistGet (k : String) : List (String × β) → Option β
  | [] => none
  | (a, b) :: rest => if a = k then some b else alistGet k rest

/-- Key-membership test (DashMap contains_key). -/
def alistContains (k : String) (m : List (String × β)) : Bool :=
  (alistGet k m).isSome

/-- Insert, replacing any existing binding of the key (DashMap insert). -/
def alistInsert (k : String) (v : β) : List (String × β) → List (String × β)
  | [] => [(k, v)]
  | (a, b) :: rest => if a = k then (a, v) :: rest else (a, b) :: alistInsert k v rest

/-- In-place value update of an existing binding (DashMap get_mut followed by
an assignment through the reference). -/
def alistUpdate (k : String) (f : β → β) : List (String × β) → List (String × β)
  | [] => []
  | (a, b) :: rest => if a = k then (a, f b) :: rest else (a, b) :: alistUpdate k f rest

/-- Removal of a key (DashMap remove; since the real map holds at most one
entry per key, removing every binding of the key is extensionally the same). -/
def alistRemove (k : String) (m : List (String × β)) : List (String × β) :=
  m.filter (fun p => p.1 != k)

/-! ## Document state of the Rust adapter (src/src-tauri/src/lsp/servers/rust.rs)

Diagnostics payloads are opaque structured values to this subsystem; we embed
one diagnostic record as its message string. -/

structure Diagnostic where
  message : String
deriving DecidableEq

/-- DocumentData from servers/rust.rs: current full text plus the last
published diagnostics for one URI. -/
structure DocumentData where
  content : String
  diagnostics : List Diagnostic
deriving DecidableEq

/-- The two per-document maps of RustLanguageServer: document_data
(content and diagnostics) and document_states (content only). -/
structure RustDocState where
  document_data : List (String × DocumentData)
  document_states : List (String × String)
deriving DecidableEq

/-- One element of DidChangeTextDocumentParams.content_changes; the adapter
only ever reads its text field. -/
structure ContentChange where
  text : String
deriving DecidableEq

/-- did_open (servers/rust.rs): store the opened text with empty diagnostics
in document_data and the text in document_states. -/
def did_open (uri text : String) (s : RustDocState) : RustDocState :=
  { document_data := alistInsert uri ⟨text, []⟩ s.document_data
    document_states := alistInsert uri text s.document_states }

/-- did_change (servers/rust.rs): if content_changes is non-empty, take the
last element's text as the new full content — updating the existing
document_data entry in place (keeping its diagnostics) or inserting a fresh
entry with empty diagnostics — and mirror the text into document_states; if
content_changes is empty, only log a warning and leave all state unchanged. -/
def did_change (uri : String) (content_changes : List ContentChange)
    (s : RustDocState) : RustDocState :=
  match content_changes.getLast? with
  | none => s
  | some last_change =>
    let new_text := last_change.text
    let dd :=
      if alistContains uri s.document_data then
        alistUpdate uri (fun d => { d with content := new_text }) s.document_data
      else
        alistInsert uri ⟨new_text, []⟩ s.document_data
    let ds :=
      if alistContains uri s.document_states then
        alistUpdate uri (fun _ => new_text) s.document_states
      else
        alistInsert uri new_text s.document_states
    { document_data := dd, document_states := ds }

/-- did_close (servers/rust.rs): drop the URI from both maps. -/
def did_close (uri : String) (s : RustDocState) : RustDocState :=
  { document_data := alistRemove uri s.document_data
    document_states := alistRemove uri s.document_states }

/-- handle_diagnostics (servers/rust.rs): on textDocument/publishDiagnostics,
insert a fresh entry (empty content, the received diagnostics) when the URI is
absent from document_data, otherwise replace only the diagnostics field. -/
def handle_diagnostics (uri : String) (diagnostics : List Diagnostic)
    (s : RustDocState) : RustDocState :=
  if alistContains uri s.document_data then
    { s with document_data :=
        alistUpdate uri (fun d => { d with diagnostics := diagnostics }) s.document_data }
  else
    { s with document_data := alistInsert uri ⟨"", diagnostics⟩ s.document_data }

/-! ## Language normalization and the active-server registry
(src/src-tauri/src/lsp/server_management.rs) -/

/-- Lower-casing of a string, character by character (embedding of
str::to_lowercase as used on language identifiers). -/
def lowercase (s : String) : String :=
  ⟨s.data.map Char.toLower⟩

/-- Splitting a character list at every occurrence of a separator. -/
def splitOnChar (sep : Char) : List Char → List (List Char)
  | [] => [[]]
  | c :: rest =>
    match splitOnChar sep rest with
    | [] => if c = sep then [[], []] else [[c]]
    | g :: gs => if c = sep then [] :: g :: gs else (c :: g) :: gs

/-- Embedding of the std path extension lookup (Path::extension, for paths
without a trailing separator): the portion of the last path component after
its final dot; none when that component has no dot, or when its only dot is
the leading character of a dotfile. -/
def pathExtension (p : String) : Option String :=
  let fileName := (splitOnChar '/' p.data).getLastD []
  match splitOnChar '.' fileName with
  | [] => none
  | [_] => none
  | first :: rest =>
    if first = [] ∧ rest.length = 1 then none
    else (rest.getLast?).map (fun cs => (⟨cs⟩ : String))

/-- get_supported_languages (server_management.rs). -/
def get_supported_languages : List String :=
  ["rust"]

/-- get_recognized_languages (server_management.rs). -/
def get_recognized_languages : List String :=
  ["rust", "javascript", "typescript", "python"]

/-- The extension-to-language table inside start_lsp_server (rs to rust,
py to python, js to javascript, ts to typescript, anything else keeps the
fallback value). -/
def extension_language (ext fallback : String) : String :=
  match ext with
  | "rs" => "rust"
  | "py" => "python"
  | "js" => "javascript"
  | "ts" => "typescript"
  | _ => fallback

/-- The language-normalization steps of start_lsp_server: lower-case, and
when the result is "unknown" or empty, replace it through the
file-extension table, keeping the lower-cased value when the extension is
absent or unmapped. -/
def normalize_language (language file_path : String) : String :=
  let normalized := lowercase language
  if normalized = "unknown" ∨ normalized = "" then
    match pathExtension file_path with
    | some ext => extension_language ext normalized
    | none => normalized
  else normalized

/-- The ACTIVE_SERVERS registry: the key set of the HashMap from language to
running flag (the stored flag is always true, so the key set is the whole
state). -/
abbrev Registry := List String

/-- Registering a language (HashMap insert, on the key set). -/
def regInsert (lang : String) (reg : Registry) : Registry :=
  if reg.contains lang then reg else reg ++ [lang]

/-- Deregistering a language (HashMap remove, on the key set). -/
def regRemove (lang : String) (reg : Registry) : Registry :=
  reg.filter (fun l => l != lang)

/-- Outcome of one start_lsp_server call: the returned Result, the registry
afterwards, and the language whose background launch thread the call spawned
(none when no thread was spawned). -/
structure StartResult where
  result : Except String String
  registry : Registry
  spawned : Option String

/-- start_lsp_server (server_management.rs): validate that the path exists,
normalize the language, reject unsupported languages listing the supported
ones, return success immediately when the language is already registered,
and otherwise register the language and spawn the background launch thread,
acknowledging optimistically.  pathExists is the filesystem oracle. -/
def start_lsp_server (pathExists : String → Bool) (language file_path : String)
    (reg : Registry) : StartResult :=
  if ¬pathExists file_path then
    ⟨.error ("Specified path does not exist: " ++ file_path), reg, none⟩
  else
    let normalized := normalize_language language file_path
    if ¬get_supported_languages.contains normalized then
      ⟨.error ("Language " ++ normalized
          ++ " is not supported. Currently supported languages are: "
          ++ String.intercalate ", " get_supported_languages), reg, none⟩
    else if reg.contains normalized then
      ⟨.ok ("LSP server for " ++ normalized ++ " is already running"), reg, none⟩
    else
      ⟨.ok ("Started LSP server for " ++ normalized), regInsert normalized reg,
        some normalized⟩

/-- The tail of the background launch thread spawned by start_lsp_server:
when the launch returns an error, the language is removed from the registry
(and the failure is logged); on success the registry is untouched. -/
def background_launch_finish (lang : String) (launch : Except String Unit)
    (reg : Registry) : Registry :=
  match launch with
  | .ok _ => reg
  | .error _ => regRemove lang reg

/-! ## The Rust language adapter (src/src-tauri/src/lsp/servers/rust.rs) -/

/-- ServerConfig (src/src-tauri/src/lsp/config.rs interface): the immutable
launch description of one analyzer process. -/
structure ServerConfig where
  root_path : String
  executable_path : Option String
  additional_args : List String
  env_vars : List (String × String)
deriving DecidableEq

/-- Failure of the adapter-level launch. -/
inductive AdapterError
  | processSpawn (executable : String)
deriving DecidableEq

/-- BaseLanguageServer::initialize for RustLanguageServer: resolve the
executable (the configured path, defaulting to rust-analyzer), spawn it —
a process-spawn error when the executable does not exist — and on success
mark the adapter initialized (the returned flag is the resulting
is_initialized value).  execExists is the spawn-environment oracle. -/
def rust_base_launch (execExists : String → Bool) (config : ServerConfig) :
    Except AdapterError Bool :=
  let exec_path := config.executable_path.getD "rust-analyzer"
  if execExists exec_path then .ok true
  else .error (.processSpawn exec_path)

/-- The name and version block of an initialize response. -/
structure AnalyzerIdent where
  name : String
  version : Option String
deriving DecidableEq

/-- The capability fields the adapter's fallback response sets to concrete
values (the remaining LSP capability fields are protocol payload the spec
treats as opaque). -/
structure ServerCapabilities where
  text_document_sync_incremental : Bool
  hover_provider : Bool
  completion_resolve_provider : Bool
  completion_trigger_characters : List String
  signature_help_trigger_characters : List String
  definition_provider : Bool
  type_definition_provider : Bool
  implementation_provider : Bool
  references_provider : Bool
  document_highlight_provider : Bool
  document_symbol_provider : Bool
  workspace_symbol_provider : Bool
  code_action_provider : Bool
  code_lens_resolve_provider : Bool
  document_formatting_provider : Bool
  rename_prepare_provider : Bool
  folding_range_provider : Bool
  declaration_provider : Bool
  workspace_folders_supported : Bool
  call_hierarchy_provider : Bool
deriving DecidableEq

/-- An initialize response as returned to the front-end. -/
structure InitializeResult where
  capabilities : ServerCapabilities
  server_info : Option AnalyzerIdent
deriving DecidableEq

/-- The conservative default capability set built inline in the adapter's
front-end-facing initialize (servers/rust.rs). -/
def default_initialize_result : InitializeResult :=
  { capabilities :=
      { text_document_sync_incremental := true
        hover_provider := true
        completion_resolve_provider := true
        completion_trigger_characters := [".", "::"]
        signature_help_trigger_characters := ["(", ","]
        definition_provider := true
        type_definition_provider := true
        implementation_provider := true
        references_provider := true
        document_highlight_provider := true
        document_symbol_provider := true
        workspace_symbol_provider := true
        code_action_provider := true
        code_lens_resolve_provider := true
        document_formatting_provider := true
        rename_prepare_provider := true
        folding_range_provider := true
        declaration_provider := true
        workspace_folders_supported := true
        call_hierarchy_provider := true }
    server_info := some { name := "rust-analyzer", version := some "1.0.0" } }

/-- What comes back from forwarding the initialize request to the child
analyzer: either the send/await itself failed, or a response arrived and
either deserialized into an InitializeResult or was malformed. -/
inductive ForwardOutcome
  | sendFailed (message : String)
  | response (parsed : Option InitializeResult)
deriving DecidableEq

/-- The JSON-RPC error the adapter returns to the front-end. -/
inductive JsonRpcError
  | internalError
deriving DecidableEq

/-- The front-end-facing initialize of RustLanguageServer (the
LanguageServer impl in servers/rust.rs): spawn the child via
rust_base_launch, answering an internal error when that fails; then
forward the initialize handshake to the child — a well-formed response is
returned as is, a malformed response degrades to
default_initialize_result, and a forwarding failure is answered with an
internal error. -/
def rust_initialize_frontend (execExists : String → Bool) (config : ServerConfig)
    (forward : ForwardOutcome) : Except JsonRpcError InitializeResult :=
  match rust_base_launch execExists config with
  | .error _ => .error .internalError
  | .ok _ =>
    match forward with
    | .sendFailed _ => .error .internalError
    | .response (some r) => .ok r
    | .response none => .ok default_initialize_result

/-- Modelled from the spec: start_language_server builds the adapter through
the ServerFactory and runs its LSP serve loop; server_factory.rs and the
serve loop are not under src, and per the spec (section 4.3, the background
launch and its failure path) the launch fails exactly when launching the
adapter fails, which for the Rust adapter is rust_base_launch.  The
error is carried as a string, as in the thread body of start_lsp_server. -/
def start_language_server (execExists : String → Bool) (config : ServerConfig) :
    Except String Unit :=
  match rust_base_launch execExists config with
  | .ok _ => .ok ()
  | .error (.processSpawn exec) => .error ("Failed to spawn process: " ++ exec)

/-! ## WebSocket gateway (src/src-tauri/src/lsp/websocket_manager.rs) -/

/-- The gateway globals: WS_SERVER_RUNNING and WS_MANAGER (presence only —
the manager's own connection state is outside this subsystem). -/
structure WsState where
  ws_server_running : Bool
  ws_manager : Option Unit
deriving DecidableEq

/-- Return value of start_lsp_websocket_server together with the state after
the synchronous part and whether the listener thread was spawned. -/
structure WsStartReturn where
  result : Except String String
  state : WsState
  spawned : Bool

/-- The synchronous part of start_lsp_websocket_server: an early success
when the running flag is already set; otherwise a probe bind of the
requested port — when the probe fails the port is assumed taken by a prior
instance of this gateway, the running flag is set and success is returned
without spawning anything; when the probe succeeds the manager global is
set, the listener thread is spawned and an optimistic acknowledgment is
returned.  probeBindOk is the outcome of the probe bind. -/
def start_ws_sync (probeBindOk : Bool) (port : Nat) (s : WsState) : WsStartReturn :=
  if s.ws_server_running then
    ⟨.ok ("LSP WebSocket server already running on port " ++ toString port), s, false⟩
  else if ¬probeBindOk then
    ⟨.ok ("LSP WebSocket server is already running on port " ++ toString port),
      { s with ws_server_running := true }, false⟩
  else
    ⟨.ok ("Starting LSP WebSocket server on port " ++ toString port
        ++ " (or next available)"),
      { s with ws_manager := some () }, true⟩

/-- The bind loop of the listener thread: try the current port and on
failure move to the next port, for the given number of remaining attempts
(5 in the source).  True exactly when one of the attempted ports binds. -/
def ws_try_ports (bindOk : Nat → Bool) : Nat → Nat → Bool
  | _, 0 => false
  | port, attempts + 1 =>
    if bindOk port then true else ws_try_ports bindOk (port + 1) attempts

/-- The listener thread body: it first stores true into the running flag and
then runs the bind loop, storing false back after the fifth consecutive
failure — so afterwards the flag holds exactly when one of the 5 candidate
ports bound.  bindOk is the per-port bind oracle. -/
def ws_listener_thread (bindOk : Nat → Bool) (port : Nat) (s : WsState) : WsState :=
  { s with ws_server_running := ws_try_ports bindOk port 5 }

/-- is_lsp_websocket_running: reads the running flag only. -/
def is_lsp_websocket_running (s : WsState) : Bool :=
  s.ws_server_running

/-- stop_lsp_websocket_server: success without changes when not running; an
error when the manager global was never set; otherwise stop the manager
(stopServerOk is that call's outcome, an error on failure) and clear the
running flag on success. -/
def stop_lsp_websocket_server (stopServerOk : Bool) (s : WsState) :
    Except String String × WsState :=
  if ¬s.ws_server_running then
    (.ok "LSP WebSocket server not running", s)
  else
    match s.ws_manager with
    | none => (.error "WebSocket manager not initialized", s)
    | some _ =>
      if ¬stopServerOk then (.error "Failed to stop WebSocket server", s)
      else (.ok "LSP WebSocket server stopped", { s with ws_server_running := false })

end Horizon

namespace Horizon

/-! ### Helper lemmas about the association-list maps -/

variable {β : Type}

theorem alistGet_insert_self (k : String) (v : β) (m : List (String × β)) :
    alistGet k (alistInsert k v m) = some v := by
  induction m with
  | nil => simp [alistInsert, alistGet]
  | cons p rest ih =>
    by_cases h : p.1 = k
    · simp [alistInsert, alistGet, h]
    · simp [alistInsert, alistGet, h, ih]

theorem alistGet_update_self (k : String) (f : β → β) (m : List (String × β)) :
    alistGet k (alistUpdate k f m) = (alistGet k m).map f := by
  induction m with
  | nil => simp [alistUpdate, alistGet]
  | cons p rest ih =>
    by_cases h : p.1 = k
    · simp [alistUpdate, alistGet, h]
    · simp [alistUpdate, alistGet, h, ih]

theorem alistGet_remove_self (k : String) (m : List (String × β)) :
    alistGet k (alistRemove k m) = none := by
  induction m with
  | nil => rfl
  | cons p rest ih =>
    obtain ⟨a, b⟩ := p
    by_cases h : a = k
    · simpa [alistRemove, List.filter_cons, h] using ih
    · simpa [alistRemove, List.filter_cons, h, alistGet] using ih

theorem alistContains_insert_self (k : String) (v : β) (m : List (String × β)) :
    alistContains k (alistInsert k v m) = true := by
  simp [alistContains, alistGet_insert_self]

theorem alistContains_remove_self (k : String) (m : List (String × β)) :
    alistContains k (alistRemove k m) = false := by
  simp [alistContains, alistGet_remove_self]

/-! ### Helper lemmas about the registry and language normalization -/

theorem regRemove_contains_self (lang : String) (reg : Registry) :
    (regRemove lang reg).contains lang = false := by
  induction reg with
  | nil => rfl
  | cons a t ih =>
    simp only [regRemove, List.filter_cons] at ih ⊢
    by_cases h : a = lang
    · rw [show (a != lang) = false by simp [h]]
      exact ih
    · rw [show (a != lang) = true by simp [h], if_pos rfl]
      have hne : (lang == a) = false := beq_eq_false_iff_ne.mpr (Ne.symm h)
      rw [List.contains_cons, hne, ih]
      rfl

theorem normalize_language_rust (p : String) :
    normalize_language "rust" p = "rust" := by
  have h : lowercase "rust" = "rust" := by decide
  simp [normalize_language, h]

theorem normalize_language_unknown_of_ext (p e : String)
    (hext : pathExtension p = some e) :
    normalize_language "unknown" p = extension_language e "unknown" := by
  have h : lowercase "unknown" = "unknown" := by decide
  simp [normalize_language, h, hext]

theorem normalize_language_empty_of_ext (p e : String)
    (hext : pathExtension p = some e) :
    normalize_language "" p = extension_language e "" := by
  have h : lowercase "" = "" := by decide
  simp [normalize_language, h, hext]

theorem start_lsp_server_eq_of_normalize_eq
    (pathExists : String → Bool) (l1 l2 p : String) (reg : Registry)
    (h : normalize_language l1 p = normalize_language l2 p) :
    start_lsp_server pathExists l1 p reg = start_lsp_server pathExists l2 p reg := by
  simp only [start_lsp_server, h]

/-! ### Helper lemma about the gateway bind loop -/

theorem ws_try_ports_all_fail (bindOk : Nat → Bool) (port : Nat)
    (h : ∀ i, i < 5 → bindOk (port + i) = false) :
    ws_try_ports bindOk port 5 = false := by
  have h0 : bindOk port = false := by simpa using h 0 (by omega)
  have h1 : bindOk (port + 1) = false := h 1 (by omega)
  have h2 : bindOk (port + 1 + 1) = false := by
    have e : port + 1 + 1 = port + 2 := by omega
    rw [e]; exact h 2 (by omega)
  have h3 : bindOk (port + 1 + 1 + 1) = false := by
    have e : port + 1 + 1 + 1 = port + 3 := by omega
    rw [e]; exact h 3 (by omega)
  have h4 : bindOk (port + 1 + 1 + 1 + 1) = false := by
    have e : port + 1 + 1 + 1 + 1 = port + 4 := by omega
    rw [e]; exact h 4 (by omega)
  show ws_try_ports bindOk port 5 = false
  rw [show (5 : Nat) = 4 + 1 from rfl, ws_try_ports, h0]
  rw [show (4 : Nat) = 3 + 1 from rfl, ws_try_ports, h1]
  rw [show (3 : Nat) = 2 + 1 from rfl, ws_try_ports, h2]
  rw [show (2 : Nat) = 1 + 1 from rfl, ws_try_ports, h3]
  rw [show (1 : Nat) = 0 + 1 from rfl, ws_try_ports, h4]
  rfl

/-! ## Claim theorems: document state -/

/-- Claim C6: for every document URI, a didOpen carrying initial text
followed by a didChange carrying new text leaves the changed text — and
not the opened text — as the stored content of that URI. -/
theorem didOpen_didChange_roundtrip
    (s : RustDocState) (uri t1 t2 : String) (hne : t2 ≠ t1) :
    (alistGet uri (did_change uri [⟨t2⟩] (did_open uri t1 s)).document_data).map
        DocumentData.content = some t2 ∧
    (alistGet uri (did_change uri [⟨t2⟩] (did_open uri t1 s)).document_data).map
        DocumentData.content ≠ some t1 := by
  have hins := alistGet_insert_self uri (⟨t1, []⟩ : DocumentData) s.document_data
  have hcon : alistContains uri
      (alistInsert uri (⟨t1, []⟩ : DocumentData) s.document_data) = true := by
    simp [alistContains, hins]
  have hmain : (alistGet uri
      (did_change uri [⟨t2⟩] (did_open uri t1 s)).document_data).map
        DocumentData.content = some t2 := by
    simp [did_change, did_open, hcon, alistGet_update_self, hins]
  refine ⟨hmain, ?_⟩
  rw [hmain]
  simp [hne]

/-- Claim C7: didClose removes the document's entry, and a diagnostics
notification arriving for that URI afterwards creates a fresh entry holding
the new diagnostics with empty content, not the removed entry's data. -/
theorem didClose_then_diagnostics_fresh
    (s : RustDocState) (uri : String) (ds : List Diagnostic) :
    alistGet uri (did_close uri s).document_data = none ∧
    alistGet uri (handle_diagnostics uri ds (did_close uri s)).document_data
      = some ⟨"", ds⟩ := by
  have hget : alistGet uri (did_close uri s).document_data = none := by
    simp [did_close, alistGet_remove_self]
  have hcon : alistContains uri (did_close uri s).document_data = false := by
    simp [alistContains, hget]
  exact ⟨hget, by simp [handle_diagnostics, hcon, alistGet_insert_self]⟩

/-- Claim C9: a didChange with a non-empty change list stores exactly the
text of the last element as the new content (earlier elements have no
effect), and a didChange with an empty change list leaves the document
state unchanged. -/
theorem didChange_last_write_or_noop
    (s : RustDocState) (uri : String) (cs : List ContentChange) :
    did_change uri [] s = s ∧
    (∀ h : cs ≠ [],
      (alistGet uri (did_change uri cs s).document_data).map DocumentData.content
        = some (cs.getLast h).text) := by
  refine ⟨rfl, fun h => ?_⟩
  rw [did_change, List.getLast?_eq_getLast cs h]
  by_cases hcon : alistContains uri s.document_data
  · obtain ⟨d, hd⟩ : ∃ d, alistGet uri s.document_data = some d := by
      cases hg : alistGet uri s.document_data with
      | none => simp [alistContains, hg] at hcon
      | some d => exact ⟨d, rfl⟩
    simp [hcon, alistGet_update_self, hd]
  · simp [hcon, alistGet_insert_self]

/-- Claim C6 witness: the round-trip at a concrete state, URI and texts. -/
theorem didOpen_didChange_roundtrip_witness :
    (alistGet "file:///a.rs"
        (did_change "file:///a.rs" [⟨"fn new"⟩]
          (did_open "file:///a.rs" "fn old" ⟨[], []⟩)).document_data).map
        DocumentData.content = some "fn new" ∧
    (alistGet "file:///a.rs"
        (did_change "file:///a.rs" [⟨"fn new"⟩]
          (did_open "file:///a.rs" "fn old" ⟨[], []⟩)).document_data).map
        DocumentData.content ≠ some "fn old" :=
  didOpen_didChange_roundtrip ⟨[], []⟩ "file:///a.rs" "fn old" "fn new" (by decide)

/-- Claim C9 witness: the last of two changes wins, and an empty change list
is a no-op, at concrete inputs. -/
theorem didChange_last_write_or_noop_witness :
    did_change "file:///a.rs" [] (⟨[], []⟩ : RustDocState) = ⟨[], []⟩ ∧
    (alistGet "file:///a.rs"
        (did_change "file:///a.rs" [⟨"one"⟩, ⟨"two"⟩]
          (⟨[], []⟩ : RustDocState)).document_data).map DocumentData.content
      = some "two" :=
  ⟨(didChange_last_write_or_noop ⟨[], []⟩ "file:///a.rs" ([] : List ContentChange)).1,
   (didChange_last_write_or_noop ⟨[], []⟩ "file:///a.rs" [⟨"one"⟩, ⟨"two"⟩]).2 (by decide)⟩

/-! ## Claim theorems: registry and start command -/

/-- Claim C3: with an existing file path and a language whose normalized
(lower-cased and, when applicable, extension-inferred) form is outside the
supported set, start_lsp_server returns the error naming that language and
listing the supported languages, leaves the registry exactly as it was, and
spawns no launch. -/
theorem unsupported_language_rejected
    (pathExists : String → Bool) (language file_path : String) (reg : Registry)
    (hpath : pathExists file_path = true)
    (hunsup : get_supported_languages.contains
        (normalize_language language file_path) = false) :
    start_lsp_server pathExists language file_path reg
      = ⟨.error ("Language " ++ normalize_language language file_path
            ++ " is not supported. Currently supported languages are: "
            ++ String.intercalate ", " get_supported_languages),
          reg, none⟩ := by
  have hnm : normalize_language language file_path ∉ get_supported_languages := by
    simpa using hunsup
  simp [start_lsp_server, hpath, hunsup, hnm]

/-- Claim C3 witness: the language go on an existing path is rejected and
the registry is untouched. -/
theorem unsupported_language_rejected_witness :
    start_lsp_server (fun _ => true) "go" "/tmp/m.go" ["rust"]
      = ⟨.error ("Language " ++ normalize_language "go" "/tmp/m.go"
            ++ " is not supported. Currently supported languages are: "
            ++ String.intercalate ", " get_supported_languages),
          ["rust"], none⟩ :=
  unsupported_language_rejected (fun _ => true) "go" "/tmp/m.go" ["rust"] rfl (by decide)

/-- Claim C4: on a path whose extension is rs, start_lsp_server with
language unknown, or with the empty language, is the very same call as with
language rust (same result, same registry, same spawn), and the extension
inference maps rs to rust, py to python, js to javascript and ts to
typescript. -/
theorem extension_inference
    (pathExists : String → Bool) (p : String) (reg : Registry)
    (hext : pathExtension p = some "rs") :
    start_lsp_server pathExists "unknown" p reg
      = start_lsp_server pathExists "rust" p reg ∧
    start_lsp_server pathExists "" p reg
      = start_lsp_server pathExists "rust" p reg ∧
    normalize_language "unknown" p = "rust" ∧
    (∀ q, pathExtension q = some "py" → normalize_language "unknown" q = "python") ∧
    (∀ q, pathExtension q = some "js" → normalize_language "unknown" q = "javascript") ∧
    (∀ q, pathExtension q = some "ts" → normalize_language "unknown" q = "typescript") := by
  have hu : normalize_language "unknown" p = "rust" := by
    rw [normalize_language_unknown_of_ext p "rs" hext]; rfl
  have he : normalize_language "" p = "rust" := by
    rw [normalize_language_empty_of_ext p "rs" hext]; rfl
  have hr : normalize_language "rust" p = "rust" := normalize_language_rust p
  refine ⟨?_, ?_, hu, ?_, ?_, ?_⟩
  · exact start_lsp_server_eq_of_normalize_eq pathExists "unknown" "rust" p reg
      (hu.trans hr.symm)
  · exact start_lsp_server_eq_of_normalize_eq pathExists "" "rust" p reg
      (he.trans hr.symm)
  · intro q hq
    rw [normalize_language_unknown_of_ext q "py" hq]; rfl
  · intro q hq
    rw [normalize_language_unknown_of_ext q "js" hq]; rfl
  · intro q hq
    rw [normalize_language_unknown_of_ext q "ts" hq]; rfl

/-- Claim C4 witness: the inference on the path /x/y.rs. -/
theorem extension_inference_witness :
    start_lsp_server (fun _ => true) "unknown" "/x/y.rs" []
      = start_lsp_server (fun _ => true) "rust" "/x/y.rs" [] ∧
    start_lsp_server (fun _ => true) "" "/x/y.rs" []
      = start_lsp_server (fun _ => true) "rust" "/x/y.rs" [] ∧
    normalize_language "unknown" "/x/y.rs" = "rust" ∧
    (∀ q, pathExtension q = some "py" → normalize_language "unknown" q = "python") ∧
    (∀ q, pathExtension q = some "js" → normalize_language "unknown" q = "javascript") ∧
    (∀ q, pathExtension q = some "ts" → normalize_language "unknown" q = "typescript") :=
  extension_inference (fun _ => true) "/x/y.rs" [] (by decide)

/-- Claim C5: starting rust twice in a row on an existing path leaves
exactly one rust entry in the registry; the second call reports the server
as already running and spawns no second launch. -/
theorem start_rust_twice_singleton
    (pathExists : String → Bool) (p : String) (reg : Registry)
    (hpath : pathExists p = true)
    (hfresh : reg.contains "rust" = false) :
    (start_lsp_server pathExists "rust" p
        (start_lsp_server pathExists "rust" p reg).registry).registry.count "rust" = 1 ∧
    (start_lsp_server pathExists "rust" p
        (start_lsp_server pathExists "rust" p reg).registry).result
      = .ok ("LSP server for rust is already running") ∧
    (start_lsp_server pathExists "rust" p
        (start_lsp_server pathExists "rust" p reg).registry).spawned = none := by
  have hnorm := normalize_language_rust p
  have hmem : "rust" ∉ reg := by simpa using hfresh
  have hfirst : (start_lsp_server pathExists "rust" p reg).registry = reg ++ ["rust"] := by
    simp [start_lsp_server, hpath, hnorm, get_supported_languages, hmem, regInsert, hfresh]
  have hcount : (reg ++ ["rust"]).count "rust" = 1 := by
    rw [List.count_append, List.count_eq_zero.mpr hmem]
    simp
  have hmem2 : "rust" ∈ reg ++ ["rust"] := by simp
  rw [hfirst]
  refine ⟨?_, ?_, ?_⟩ <;>
    simp [start_lsp_server, hpath, hnorm, get_supported_languages, hmem2, hcount]

/-- Claim C5 witness: two successive rust starts from the empty registry. -/
theorem start_rust_twice_singleton_witness :
    (start_lsp_server (fun _ => true) "rust" "/proj/src/main.rs"
        (start_lsp_server (fun _ => true) "rust" "/proj/src/main.rs" []).registry).registry.count
        "rust" = 1 ∧
    (start_lsp_server (fun _ => true) "rust" "/proj/src/main.rs"
        (start_lsp_server (fun _ => true) "rust" "/proj/src/main.rs" []).registry).result
      = .ok ("LSP server for rust is already running") ∧
    (start_lsp_server (fun _ => true) "rust" "/proj/src/main.rs"
        (start_lsp_server (fun _ => true) "rust" "/proj/src/main.rs" []).registry).spawned
      = none :=
  start_rust_twice_singleton (fun _ => true) "/proj/src/main.rs" [] rfl rfl

/-! ## Claim theorems: adapter launch and front-end initialize -/

/-- Claim C2 counterexample: with the child process spawned successfully and
the forwarding of the initialize handshake failing, the front-end-facing
initialize returns an internal error — not a successful result carrying the
default capability set, as the claim asserts. -/
theorem initialize_forward_failure_errors :
    rust_initialize_frontend (fun _ => true) ⟨"/proj", none, [], []⟩
      (ForwardOutcome.sendFailed "connection closed")
      = .error JsonRpcError.internalError ∧
    rust_initialize_frontend (fun _ => true) ⟨"/proj", none, [], []⟩
      (ForwardOutcome.sendFailed "connection closed")
      ≠ .ok default_initialize_result :=
  ⟨rfl, fun h => Except.noConfusion h⟩

/-- Claim C2 amended: after a successful spawn, a malformed child response
degrades to the conservative default capability set and a well-formed
response is returned as is, so the session does not abort in the malformed
case; a forwarding failure, however, is returned to the front-end as an
internal error. -/
theorem initialize_degrades_only_on_malformed
    (execExists : String → Bool) (config : ServerConfig)
    (hspawn : execExists (config.executable_path.getD "rust-analyzer") = true) :
    rust_initialize_frontend execExists config (ForwardOutcome.response none)
      = .ok default_initialize_result ∧
    (∀ r, rust_initialize_frontend execExists config (ForwardOutcome.response (some r))
      = .ok r) ∧
    (∀ msg, rust_initialize_frontend execExists config (ForwardOutcome.sendFailed msg)
      = .error JsonRpcError.internalError) := by
  refine ⟨?_, fun r => ?_, fun msg => ?_⟩ <;>
    simp [rust_initialize_frontend, rust_base_launch, hspawn]

/-- Claim C2 amended witness: the three outcomes at a concrete spawn
environment and configuration. -/
theorem initialize_degrades_only_on_malformed_witness :
    rust_initialize_frontend (fun _ => true) ⟨"/proj", none, [], []⟩
      (ForwardOutcome.response none) = .ok default_initialize_result ∧
    (∀ r, rust_initialize_frontend (fun _ => true) ⟨"/proj", none, [], []⟩
      (ForwardOutcome.response (some r)) = .ok r) ∧
    (∀ msg, rust_initialize_frontend (fun _ => true) ⟨"/proj", none, [], []⟩
      (ForwardOutcome.sendFailed msg) = .error JsonRpcError.internalError) :=
  initialize_degrades_only_on_malformed (fun _ => true) ⟨"/proj", none, [], []⟩ rfl

/-- Claim C8: launching the adapter with an executable that does not exist
returns a process-spawn error; after the background launch thread finishes,
the language is absent from the registry, and a retry of start_lsp_server
for it takes the fresh-start path — acknowledging a new start and spawning
a new launch — rather than the already-running path. -/
theorem spawn_failure_enables_retry
    (execExists pathExists : String → Bool) (config : ServerConfig)
    (reg : Registry) (p : String)
    (hexec : execExists (config.executable_path.getD "rust-analyzer") = false)
    (hpath : pathExists p = true) :
    rust_base_launch execExists config
      = .error (.processSpawn (config.executable_path.getD "rust-analyzer")) ∧
    (background_launch_finish "rust" (start_language_server execExists config)
        reg).contains "rust" = false ∧
    (start_lsp_server pathExists "rust" p
        (background_launch_finish "rust" (start_language_server execExists config)
          reg)).spawned = some "rust" ∧
    (start_lsp_server pathExists "rust" p
        (background_launch_finish "rust" (start_language_server execExists config)
          reg)).result = .ok ("Started LSP server for rust") := by
  have hbase : rust_base_launch execExists config
      = .error (.processSpawn (config.executable_path.getD "rust-analyzer")) := by
    simp [rust_base_launch, hexec]
  have hlaunch : start_language_server execExists config
      = .error ("Failed to spawn process: "
          ++ (config.executable_path.getD "rust-analyzer")) := by
    rw [start_language_server, hbase]
  have hreg : background_launch_finish "rust" (start_language_server execExists config) reg
      = regRemove "rust" reg := by
    rw [hlaunch]; rfl
  have hgone : (regRemove "rust" reg).contains "rust" = false :=
    regRemove_contains_self "rust" reg
  have hnorm := normalize_language_rust p
  have hnotmem : "rust" ∉ regRemove "rust" reg := by simpa using hgone
  refine ⟨hbase, by rw [hreg]; exact hgone, ?_, ?_⟩ <;>
    rw [hreg] <;>
    simp [start_lsp_server, hpath, hnorm, get_supported_languages, hnotmem]

/-- Claim C8 witness: a missing rust-analyzer executable at concrete
inputs, starting from a registry still holding the rust entry. -/
theorem spawn_failure_enables_retry_witness :
    rust_base_launch (fun _ => false) ⟨"/proj", none, [], []⟩
      = .error (.processSpawn
          ((⟨"/proj", none, [], []⟩ : ServerConfig).executable_path.getD "rust-analyzer")) ∧
    (background_launch_finish "rust"
        (start_language_server (fun _ => false) ⟨"/proj", none, [], []⟩)
        ["rust"]).contains "rust" = false ∧
    (start_lsp_server (fun _ => true) "rust" "/proj/src/main.rs"
        (background_launch_finish "rust"
          (start_language_server (fun _ => false) ⟨"/proj", none, [], []⟩)
          ["rust"])).spawned = some "rust" ∧
    (start_lsp_server (fun _ => true) "rust" "/proj/src/main.rs"
        (background_launch_finish "rust"
          (start_language_server (fun _ => false) ⟨"/proj", none, [], []⟩)
          ["rust"])).result = .ok ("Started LSP server for rust") :=
  spawn_failure_enables_retry (fun _ => false) (fun _ => true) ⟨"/proj", none, [], []⟩
    ["rust"] "/proj/src/main.rs" rfl rfl

/-! ## Claim theorems: WebSocket gateway -/

/-- Claim C1: when the requested port is already bound by another process
(the probe bind fails), start returns success without error and the running
flag reads true afterwards; when instead the gateway's own listener thread
fails to bind all 5 candidate ports (the requested port and the next four),
the running flag ends false while the original caller still received the
optimistic success acknowledgment. -/
theorem ws_start_port_conflict_vs_exhaustion
    (s : WsState) (port : Nat) (bindOk : Nat → Bool)
    (hnotrunning : s.ws_server_running = false)
    (hallfail : ∀ i, i < 5 → bindOk (port + i) = false) :
    ((start_ws_sync false port s).result
        = .ok ("LSP WebSocket server is already running on port " ++ toString port) ∧
      is_lsp_websocket_running (start_ws_sync false port s).state = true) ∧
    ((start_ws_sync true port s).result
        = .ok ("Starting LSP WebSocket server on port " ++ toString port
            ++ " (or next available)") ∧
      (start_ws_sync true port s).spawned = true ∧
      is_lsp_websocket_running
        (ws_listener_thread bindOk port (start_ws_sync true port s).state) = false) := by
  have hloop := ws_try_ports_all_fail bindOk port hallfail
  refine ⟨⟨?_, ?_⟩, ?_, ?_, ?_⟩ <;>
    simp [start_ws_sync, hnotrunning, is_lsp_websocket_running, ws_listener_thread, hloop]

/-- Claim C1 witness: port 9000, a fresh gateway, and a bind oracle that
always fails. -/
theorem ws_start_port_conflict_vs_exhaustion_witness :
    ((start_ws_sync false 9000 ⟨false, none⟩).result
        = .ok ("LSP WebSocket server is already running on port " ++ toString 9000) ∧
      is_lsp_websocket_running (start_ws_sync false 9000 ⟨false, none⟩).state = true) ∧
    ((start_ws_sync true 9000 ⟨false, none⟩).result
        = .ok ("Starting LSP WebSocket server on port " ++ toString 9000
            ++ " (or next available)") ∧
      (start_ws_sync true 9000 ⟨false, none⟩).spawned = true ∧
      is_lsp_websocket_running
        (ws_listener_thread (fun _ => false) 9000
          (start_ws_sync true 9000 ⟨false, none⟩).state) = false) :=
  ws_start_port_conflict_vs_exhaustion ⟨false, none⟩ 9000 (fun _ => false) rfl
    (fun _ _ => rfl)

/-- Claim C10: after a start that returned success through the
port-occupied path (the running flag was set but no WebSocketManager was
ever constructed), stop returns the manager-not-initialized error instead
of a no-op success, the state is unchanged, and the running flag still
reads true after the failed stop. -/
theorem ws_stop_after_port_conflict_errors
    (port : Nat) (stopServerOk : Bool) (s : WsState)
    (hnotrunning : s.ws_server_running = false) (hmgr : s.ws_manager = none) :
    stop_lsp_websocket_server stopServerOk (start_ws_sync false port s).state
      = (.error "WebSocket manager not initialized",
          (start_ws_sync false port s).state) ∧
    is_lsp_websocket_running (start_ws_sync false port s).state = true ∧
    is_lsp_websocket_running
      (stop_lsp_websocket_server stopServerOk (start_ws_sync false port s).state).2
        = true := by
  refine ⟨?_, ?_, ?_⟩ <;>
    simp [start_ws_sync, hnotrunning, hmgr, stop_lsp_websocket_server,
      is_lsp_websocket_running]

/-- Claim C10 witness: port 9000 and a fresh gateway state. -/
theorem ws_stop_after_port_conflict_errors_witness :
    stop_lsp_websocket_server true (start_ws_sync false 9000 ⟨false, none⟩).state
      = (.error "WebSocket manager not initialized",
          (start_ws_sync false 9000 ⟨false, none⟩).state) ∧
    is_lsp_websocket_running (start_ws_sync false 9000 ⟨false, none⟩).state = true ∧
    is_lsp_websocket_running
      (stop_lsp_websocket_server true (start_ws_sync false 9000 ⟨false, none⟩).state).2
        = true :=
  ws_stop_after_port_conflict_errors 9000 true ⟨false, none⟩ rfl rfl

end Horizon
